import Mathlib

/-!
Verification of the employee CRUD service (FastAPI router in `main.py`
plus the `database` data-access module it calls).

The router layer is translated directly from `main.py`.  The `database`
module and the `Employee` model are not part of the available sources,
so their operations are modelled from the specification (each such
definition carries a doc comment starting `Modelled from the spec:`).

State is a `DB` record threaded explicitly; an HTTP response is a
`Response` value; every handler additionally reports the list of store
calls it performed, so that claims about which store operations a
request reaches can be stated.
-/

/-- Modelled from the spec: the sole entity, with integer id and two
text attributes (`models.Employee` is not among the sources). -/
structure Employee where
  id : Int
  name : String
  department : String
deriving DecidableEq, Repr

/-- The persistent state owned by the data store: whether the table has
been created, the rows in primary-key (insertion) order, and the next
id the store will assign. -/
structure DB where
  tableExists : Bool
  rows : List Employee
  nextId : Int
deriving DecidableEq, Repr

namespace database

/-- Modelled from the spec: `create_table()` idempotently ensures the
employee table exists; no return value (the `database` module is not
among the sources). -/
def create_table (db : DB) : DB :=
  { db with tableExists := true }

/-- Modelled from the spec: `get_employees(skip, limit)` returns an
ordered sequence of up to `limit` employees after skipping the first
`skip`, in primary-key ascending order; empty if no rows match
(the `database` module is not among the sources). -/
def get_employees (db : DB) (skip limit : Int) : List Employee :=
  (db.rows.drop skip.toNat).take limit.toNat

/-- Modelled from the spec: `get_employee(id)` returns the single
employee with that id, or the not-found sentinel `None` (here `none`)
if absent, never an exception (the `database` module is not among the
sources). -/
def get_employee (db : DB) (id : Int) : Option Employee :=
  db.rows.find? (fun r => r.id == id)

/-- Modelled from the spec: `insert_employee(employee)` assigns a new
unique id (ignoring any client-supplied id), persists the row, and
returns the stored record including the assigned id (the `database`
module is not among the sources). -/
def insert_employee (db : DB) (e : Employee) : DB × Employee :=
  let stored : Employee := { id := db.nextId, name := e.name, department := e.department }
  ({ db with rows := db.rows ++ [stored], nextId := db.nextId + 1 }, stored)

/-- Modelled from the spec: `delete_employee(id)` removes the row with
that id and returns a boolean, true if a row was removed, false if no
such row existed; no error for a missing id (the `database` module is
not among the sources). -/
def delete_employee (db : DB) (id : Int) : DB × Bool :=
  ({ db with rows := db.rows.filter (fun r => r.id != id) },
   db.rows.any (fun r => r.id == id))

/-- Modelled from the spec: `update_employee(id, column, new_value)`
sets the named column for the row with that id and returns a boolean,
true if a row was affected.  The spec defines the operation only for
the columns `name` and `department` and leaves any other column name
unspecified (a latent defect of the source, where such a value would
reach the underlying query); an unrecognized column is therefore
modelled as a storage fault (`none`), not as a boolean result
(the `database` module is not among the sources). -/
def update_employee (db : DB) (id : Int) (column new_value : String) :
    Option (DB × Bool) :=
  if column = "name" then
    some ({ db with rows := db.rows.map (fun r => if r.id == id then { r with name := new_value } else r) },
          db.rows.any (fun r => r.id == id))
  else if column = "department" then
    some ({ db with rows := db.rows.map (fun r => if r.id == id then { r with department := new_value } else r) },
          db.rows.any (fun r => r.id == id))
  else
    none

end database

/-- An HTTP-level outcome of one handler invocation.  `error` is a
raised `HTTPException` (status code and detail); `storageFault` stands
for an exception propagating out of the `database` module, which the
router does not catch (surfaced by the host server as a 500-class
error, not produced by the router itself). -/
inductive Response where
  | okList (es : List Employee)
  | okEmployee (e : Employee)
  | okMessage (message : String)
  | error (status : Nat) (detail : String)
  | storageFault
deriving DecidableEq, Repr

/-- A call made by the router into the `database` module, with its
arguments as passed. -/
inductive StoreCall where
  | createTable
  | getEmployees (skip limit : Int)
  | getEmployee (id : Int)
  | insertEmployee (e : Employee)
  | deleteEmployee (id : Int)
  | updateEmployee (id : Int) (column new_value : String)
deriving DecidableEq, Repr

/-- From `main.py`: `GET /employees/` handler.  Returns
`database.get_employees(skip, limit)` as the response body. -/
def read_employees (db : DB) (skip limit : Int) : DB × Response × List StoreCall :=
  (db, Response.okList (database.get_employees db skip limit),
   [StoreCall.getEmployees skip limit])

/-- From `main.py`: `GET /employees/{employee_id}` handler.  Fetches the
row; raises 404 with detail "Employee not found" when the store returns
the `None` sentinel, otherwise returns the employee. -/
def read_employee (db : DB) (employee_id : Int) : DB × Response × List StoreCall :=
  match database.get_employee db employee_id with
  | none => (db, Response.error 404 ("Employee not found"), [StoreCall.getEmployee employee_id])
  | some e => (db, Response.okEmployee e, [StoreCall.getEmployee employee_id])

/-- From `main.py`: `POST /employees/` handler.  Returns
`database.insert_employee(employee)` verbatim as the response body. -/
def create_employee (db : DB) (employee : Employee) : DB × Response × List StoreCall :=
  let res := database.insert_employee db employee
  (res.1, Response.okEmployee res.2, [StoreCall.insertEmployee employee])

/-- From `main.py`: `DELETE /employees/{employee_id}` handler.  Raises
404 with detail "Employee not found" when `database.delete_employee`
returns false, otherwise returns the fixed message. -/
def delete_employee (db : DB) (employee_id : Int) : DB × Response × List StoreCall :=
  let res := database.delete_employee db employee_id
  if res.2 then (res.1, Response.okMessage ("Employee deleted"), [StoreCall.deleteEmployee employee_id])
  else (res.1, Response.error 404 ("Employee not found"), [StoreCall.deleteEmployee employee_id])

/-- From `main.py`: `PUT /employees/{employee_id}/{column}/{new_value}`
handler.  Calls `database.update_employee(employee_id, column,
new_value)` with the path segments unchanged (no validation of
`column`); raises 404 with detail "Employee not found" when the store
returns false, returns the fixed message when it returns true, and a
store exception propagates uncaught. -/
def update_employee (db : DB) (employee_id : Int) (column new_value : String) :
    DB × Response × List StoreCall :=
  match database.update_employee db employee_id column new_value with
  | none => (db, Response.storageFault, [StoreCall.updateEmployee employee_id column new_value])
  | some (db', true) =>
      (db', Response.okMessage ("Employee updated"), [StoreCall.updateEmployee employee_id column new_value])
  | some (db', false) =>
      (db', Response.error 404 ("Employee not found"), [StoreCall.updateEmployee employee_id column new_value])

/-- Default of the `skip` query parameter in `read_employees`. -/
def skip_default : Int := 0

/-- Default of the `limit` query parameter in `read_employees`. -/
def limit_default : Int := 10

/-- The five HTTP operations of the service; the list operation carries
its query parameters as `Option` so an omitted parameter (`none`) takes
the handler default. -/
inductive Request where
  | list (skip limit : Option Int)
  | getOne (id : Int)
  | create (e : Employee)
  | delete (id : Int)
  | update (id : Int) (column new_value : String)
deriving DecidableEq, Repr

/-- Dispatch of a request to the corresponding handler of `main.py`. -/
def handle (db : DB) : Request → DB × Response × List StoreCall
  | Request.list skip limit => read_employees db (skip.getD skip_default) (limit.getD limit_default)
  | Request.getOne id => read_employee db id
  | Request.create e => create_employee db e
  | Request.delete id => delete_employee db id
  | Request.update id column new_value => update_employee db id column new_value

/-- From `main.py`: the function registered with the startup event; it
calls `database.create_table()`. -/
def startup_event (db : DB) : DB :=
  database.create_table db

/-- The application's registered startup hooks: exactly the one
`startup_event` (the only `on_event` registration in `main.py`). -/
def app_startup_handlers : List (DB → DB) :=
  [startup_event]

/-- The application's registered shutdown hooks: `main.py` registers
none. -/
def app_shutdown_handlers : List (DB → DB) :=
  []

/-- Running all registered startup hooks, in order, before serving. -/
def boot (db : DB) : DB :=
  app_startup_handlers.foldl (fun d h => h d) db

/-- Running a sequence of requests, threading the store state. -/
def run (db : DB) : List Request → DB
  | [] => db
  | r :: rs => run (handle db r).1 rs

/-- The process lifecycle: startup hooks run first, then requests are
served. -/
def serve (db : DB) (reqs : List Request) : DB :=
  run (boot db) reqs

/-- A sample store state used in concrete evaluations. -/
def dbSample : DB :=
  { tableExists := true,
    rows := [{ id := 1, name := "Ann", department := "Eng" }],
    nextId := 2 }

/-- A sample empty store state used in concrete evaluations. -/
def dbEmpty : DB :=
  { tableExists := true, rows := [], nextId := 1 }

/- Helper lemmas shared by the claim theorems. -/

/-- The delete handler leaves the store in the state
`database.delete_employee` produced, whether or not a row was
removed. -/
theorem delete_employee_fst (db : DB) (id : Int) :
    (delete_employee db id).1 = (database.delete_employee db id).1 := by
  cases h : (database.delete_employee db id).2 <;> simp [delete_employee, h]

/-- If no row has the requested id, the lookup returns the not-found
sentinel. -/
theorem get_employee_eq_none_of_any_false {db : DB} {id : Int}
    (h : db.rows.any (fun r => r.id == id) = false) :
    database.get_employee db id = none := by
  unfold database.get_employee
  rw [List.find?_eq_none]
  intro x hx
  simpa using (List.any_eq_false.mp h) x hx

/-- A false result from the store's update means no row has the
requested id. -/
theorem update_employee_false_get_none {db db' : DB} {id : Int} {c v : String}
    (h : database.update_employee db id c v = some (db', false)) :
    database.get_employee db id = none := by
  unfold database.update_employee at h
  split at h
  · apply get_employee_eq_none_of_any_false
    simpa using congrArg Prod.snd (Option.some.inj h)
  · split at h
    · apply get_employee_eq_none_of_any_false
      simpa using congrArg Prod.snd (Option.some.inj h)
    · exact absurd h (by simp)

/-- The store's update never changes whether the table exists. -/
theorem update_employee_tableExists {db db' : DB} {id : Int} {c v : String} {b : Bool}
    (h : database.update_employee db id c v = some (db', b)) :
    db'.tableExists = db.tableExists := by
  unfold database.update_employee at h
  split at h
  · cases Option.some.inj h; rfl
  · split at h
    · cases Option.some.inj h; rfl
    · exact absurd h (by simp)

/-- Every handler preserves whether the table exists. -/
theorem handle_tableExists (db : DB) (req : Request) :
    ((handle db req).1).tableExists = db.tableExists := by
  cases req with
  | list s l => rfl
  | getOne id =>
      cases h : database.get_employee db id <;> simp [handle, read_employee, h]
  | create e => rfl
  | delete id =>
      simp [handle, delete_employee_fst, database.delete_employee]
  | update id c v =>
      rcases h : database.update_employee db id c v with _ | ⟨db', b⟩
      · simp [handle, update_employee, h]
      · cases b <;> simp [handle, update_employee, h, update_employee_tableExists h]

/-- Running requests preserves whether the table exists. -/
theorem run_tableExists (reqs : List Request) (db : DB) :
    (run db reqs).tableExists = db.tableExists := by
  induction reqs generalizing db with
  | nil => rfl
  | cons r rs ih => rw [run, ih, handle_tableExists]

/-- Updating the name column rewrites the found record's name and
nothing else. -/
theorem find?_map_update_name (l : List Employee) (id : Int) (v : String) :
    (l.map (fun r => if r.id == id then { r with name := v } else r)).find?
        (fun r => r.id == id) =
      (l.find? (fun r => r.id == id)).map (fun r => { r with name := v }) := by
  induction l with
  | nil => rfl
  | cons r l ih =>
      cases hr : r.id == id with
      | false =>
          have hf : (if r.id == id then ({ r with name := v } : Employee) else r) = r := by
            simp [hr]
          rw [List.map_cons, List.find?_cons_of_neg _ (by rw [hf]; simp [hr]),
            show List.find? (fun x : Employee => x.id == id) (r :: l) =
                List.find? (fun x : Employee => x.id == id) l from
              List.find?_cons_of_neg _ (by simp [hr]), ih]
      | true =>
          have hf : (if r.id == id then ({ r with name := v } : Employee) else r) =
              { r with name := v } := by
            simp [hr]
          rw [List.map_cons, List.find?_cons_of_pos _ (by rw [hf]; exact hr),
            show List.find? (fun x : Employee => x.id == id) (r :: l) = some r from
              List.find?_cons_of_pos _ hr, hf]
          rfl

/- Claim theorems. -/

/-- Claim C1 (code evaluated at the failing input): the update handler
of `main.py` performs no validation of the `column` path segment.  At
the request `PUT /employees/1/salary/x` on a store holding employee 1,
the router forwards the unrecognized column "salary" to the store's
update operation (the store call is reached with the column unchanged),
and the router produces no rejection of its own: the outcome is the
propagated storage fault, not a router-generated error response. -/
theorem C1_column_reaches_store :
    (update_employee dbSample 1 ("salary") ("x")).2.2 =
        [StoreCall.updateEmployee 1 ("salary") ("x")] ∧
    (update_employee dbSample 1 ("salary") ("x")).2.1 = Response.storageFault := by
  exact ⟨rfl, rfl⟩

/-- Claim C2: the get-one handler returns the employee exactly when the
store's lookup returns a record, and raises 404 with detail
"Employee not found" exactly when the store returns the `None`
sentinel; no other outcome can surface the absent row. -/
theorem C2_read_employee_translation (db : DB) (id : Int) :
    ((read_employee db id).2.1 = Response.error 404 ("Employee not found") ↔
      database.get_employee db id = none) ∧
    (∀ e : Employee, (read_employee db id).2.1 = Response.okEmployee e ↔
      database.get_employee db id = some e) := by
  cases h : database.get_employee db id <;> simp [read_employee, h]

/-- Claim C3: the delete handler returns the fixed success message
exactly when the store's delete returns true, raises 404 with detail
"Employee not found" exactly when it returns false, and produces no
other outcome. -/
theorem C3_delete_translation (db : DB) (id : Int) :
    ((delete_employee db id).2.1 = Response.okMessage ("Employee deleted") ↔
      (database.delete_employee db id).2 = true) ∧
    ((delete_employee db id).2.1 = Response.error 404 ("Employee not found") ↔
      (database.delete_employee db id).2 = false) ∧
    ((delete_employee db id).2.1 = Response.okMessage ("Employee deleted") ∨
      (delete_employee db id).2.1 = Response.error 404 ("Employee not found")) := by
  cases h : (database.delete_employee db id).2 <;> simp [delete_employee, h]

/-- Claim C4: the update handler returns the fixed success message
exactly when the store's update returns true, and raises 404 with
detail "Employee not found" exactly when it returns false. -/
theorem C4_update_translation (db : DB) (id : Int) (column new_value : String) :
    ((update_employee db id column new_value).2.1 =
        Response.okMessage ("Employee updated") ↔
      ∃ db' : DB, database.update_employee db id column new_value = some (db', true)) ∧
    ((update_employee db id column new_value).2.1 =
        Response.error 404 ("Employee not found") ↔
      ∃ db' : DB, database.update_employee db id column new_value = some (db', false)) := by
  rcases h : database.update_employee db id column new_value with _ | ⟨db', b⟩
  · simp [update_employee, h]
  · cases b <;> simp [update_employee, h]

/-- Claim C5: the only error response any handler produces is 404 with
detail "Employee not found", it can come only from the get-one, delete
or update handler, and only when no row has the target id; the list and
create handlers never produce an error response. -/
theorem C5_error_taxonomy (db : DB) (req : Request) (s : Nat) (d : String)
    (h : (handle db req).2.1 = Response.error s d) :
    s = 404 ∧ d = "Employee not found" ∧
    ∃ id : Int, database.get_employee db id = none ∧
      (req = Request.getOne id ∨ req = Request.delete id ∨
        ∃ c v : String, req = Request.update id c v) := by
  cases req with
  | list s' l' => simp [handle, read_employees] at h
  | getOne id =>
      cases hg : database.get_employee db id with
      | none =>
          simp [handle, read_employee, hg] at h
          exact ⟨h.1.symm, h.2.symm, id, hg, Or.inl rfl⟩
      | some e => simp [handle, read_employee, hg] at h
  | create e => simp [handle, create_employee] at h
  | delete id =>
      cases hd : db.rows.any (fun r => r.id == id) with
      | false =>
          simp [handle, delete_employee, database.delete_employee, hd] at h
          exact ⟨h.1.symm, h.2.symm, id, get_employee_eq_none_of_any_false hd,
            Or.inr (Or.inl rfl)⟩
      | true => simp [handle, delete_employee, database.delete_employee, hd] at h
  | update id c v =>
      rcases hu : database.update_employee db id c v with _ | ⟨db', b⟩
      · simp [handle, update_employee, hu] at h
      · cases b with
        | true => simp [handle, update_employee, hu] at h
        | false =>
            simp [handle, update_employee, hu] at h
            exact ⟨h.1.symm, h.2.symm, id, update_employee_false_get_none hu,
              Or.inr (Or.inr ⟨c, v, rfl⟩)⟩

/-- Witness for C5 at a concrete input: `GET /employees/5` on the empty
store yields the 404 error, and the conclusion holds there. -/
theorem C5_error_taxonomy_witness :
    404 = 404 ∧ "Employee not found" = "Employee not found" ∧
    ∃ id : Int, database.get_employee dbEmpty id = none ∧
      (Request.getOne 5 = Request.getOne id ∨ Request.getOne 5 = Request.delete id ∨
        ∃ c v : String, Request.getOne 5 = Request.update id c v) :=
  C5_error_taxonomy dbEmpty (Request.getOne 5) 404 ("Employee not found") (by rfl)

/-- Claim C6: omitted query parameters of the list operation default to
skip 0 and limit 10, the handler returns exactly the store's page, and
a page requested with limit N holds at most N records. -/
theorem C6_list_defaults_and_limit (db : DB) :
    handle db (Request.list none none) = read_employees db 0 10 ∧
    (∀ skip limit : Int, (read_employees db skip limit).2.1 =
        Response.okList (database.get_employees db skip limit)) ∧
    (∀ (N : Nat) (skip : Int), (database.get_employees db skip (N : Int)).length ≤ N) := by
  refine ⟨rfl, fun skip limit => rfl, fun N skip => ?_⟩
  simp only [database.get_employees, List.length_take, Int.toNat_natCast]
  exact min_le_left _ _

/-- Claim C7: deleting an id and then fetching it yields the 404
"Employee not found" outcome, whether or not the row existed. -/
theorem C7_delete_then_get (db : DB) (id : Int) :
    (read_employee (delete_employee db id).1 id).2.1 =
      Response.error 404 ("Employee not found") := by
  have hnone : database.get_employee (delete_employee db id).1 id = none := by
    rw [delete_employee_fst]
    apply get_employee_eq_none_of_any_false
    simp [database.delete_employee, List.any_eq_false, List.mem_filter]
  simp [read_employee, hnone]

/-- The update handler leaves the store in the name-updated state when
the column is "name", whether or not a row was affected. -/
theorem update_employee_fst_name (db : DB) (id : Int) (v : String) :
    (update_employee db id ("name") v).1 =
      { db with rows := db.rows.map (fun r => if r.id == id then { r with name := v } else r) } := by
  cases hb : db.rows.any (fun r => r.id == id) <;>
    simp [update_employee, database.update_employee, hb]

/-- Claim C8: for an existing id, updating the name column and then
fetching the record yields name v with department and id unchanged. -/
theorem C8_update_name_frame (db : DB) (id : Int) (v : String) (e : Employee)
    (h : database.get_employee db id = some e) :
    ∃ e' : Employee,
      database.get_employee (update_employee db id ("name") v).1 id = some e' ∧
      e'.name = v ∧ e'.department = e.department ∧ e'.id = e.id := by
  refine ⟨{ e with name := v }, ?_, rfl, rfl, rfl⟩
  rw [update_employee_fst_name]
  unfold database.get_employee at h
  show (db.rows.map (fun r => if r.id == id then { r with name := v } else r)).find?
      (fun r => r.id == id) = some { e with name := v }
  rw [find?_map_update_name, h]
  rfl

/-- Witness for C8 at a concrete input: updating the name of the
existing employee 1 of the sample store. -/
theorem C8_update_name_frame_witness :
    database.get_employee dbSample 1 =
      some { id := 1, name := "Ann", department := "Eng" } ∧
    ∃ e' : Employee,
      database.get_employee (update_employee dbSample 1 ("name") ("Bob")).1 1 = some e' ∧
      e'.name = "Bob" ∧ e'.department = "Eng" ∧ e'.id = 1 :=
  ⟨by rfl,
    C8_update_name_frame dbSample 1 ("Bob")
      { id := 1, name := "Ann", department := "Eng" } (by rfl)⟩

/-- Claim C9: the startup hook is exactly a call to the store's
create_table; after boot the table exists, and it keeps existing
through any served request sequence; no shutdown hook is registered. -/
theorem C9_startup_lifecycle (db : DB) :
    app_shutdown_handlers = [] ∧
    boot db = database.create_table db ∧
    (boot db).tableExists = true ∧
    (∀ reqs : List Request, (serve db reqs).tableExists = true) := by
  refine ⟨rfl, rfl, rfl, fun reqs => ?_⟩
  rw [serve, run_tableExists]
  rfl

/-- Claim C10: the create handler forwards the request payload verbatim
to the store's insert (the logged store call carries the payload
unchanged) and returns the store's record verbatim as the body; the
client-supplied id is ignored inside the store, which assigns its own
next id. -/
theorem C10_create_forwards_verbatim (db : DB) (e : Employee) :
    create_employee db e =
      ((database.insert_employee db e).1,
        Response.okEmployee (database.insert_employee db e).2,
        [StoreCall.insertEmployee e]) ∧
    (database.insert_employee db e).2.id = db.nextId :=
  ⟨rfl, rfl⟩
